import Mathlib

/-!
Shallow embedding of the authentication subsystem of a Rust/Rocket
credential-and-session service (src/auth/jwt.rs, src/auth/guard.rs,
src/routes/auth.rs, src/models, src/main.rs), with theorems settling the
specification claims about it.

External collaborators (the SQL store, the bcrypt library, the uuid
generator) are modelled by passing the outcome of each external call into
the flow as an explicit input, one field per call site, in source order.
Wall-clock time is an explicit parameter (epoch seconds). A Rust
`.expect(...)` that can abort a request is modelled by a dedicated
`panic` outcome, never collapsed into an error value.
-/

namespace RustAuth

/-! ## Token service: src/auth/jwt.rs -/

/-- JWT claims (struct `Claims` in src/auth/jwt.rs): subject (user id),
expiration time and issued-at, all epoch seconds. -/
structure Claims where
  sub : String
  exp : Nat
  iat : Nat
deriving DecidableEq, Repr

/-- Model of `Claims::new`: reads the clock, sets `iat = now` and
`exp = now + 24 hours` (Duration::hours(24), in seconds). -/
def Claims.new (now : Nat) (user_id : String) : Claims :=
  { sub := user_id, exp := now + 24 * 3600, iat := now }

/-- The process environment as read through `std::env::var`:
the only variable the token service reads is ROCKET_JWT_SECRET. -/
structure Env where
  jwt_secret : Option String
deriving DecidableEq, Repr

/-- Wire-level JWT blob. `signed c k` stands for the string produced by
`jsonwebtoken::encode` of claims `c` under secret `k` (the signature is
modelled by recording the signing key); `garbage s` stands for any string
that is not a well-formed signed token. -/
inductive Jwt
  | signed (claims : Claims) (secret : String)
  | garbage (s : String)
deriving DecidableEq, Repr

/-- Error kinds of `jsonwebtoken::decode` relevant to this service. -/
inductive JwtError
  | invalidSignature
  | expired
  | malformed
deriving DecidableEq, Repr

/-- Outcome of an operation that may abort the request: Rust
`Result` extended with the `panic` of an `.expect(...)` call. -/
inductive ReqResult (α : Type)
  | ok (a : α)
  | err (e : JwtError)
  | panic
deriving DecidableEq, Repr

/-- Model of `JwtService::generate_token`: reads ROCKET_JWT_SECRET from the process
environment on this very call and panics (`.expect`) when it is absent;
otherwise builds `Claims::new` for the user and signs them. -/
def JwtService.generate_token (env : Env) (now : Nat) (user_id : String) :
    ReqResult Jwt :=
  match env.jwt_secret with
  | none => .panic
  | some secret => .ok (.signed (Claims.new now user_id) secret)

/-- Model of `JwtService::verify_token`: reads ROCKET_JWT_SECRET on this very call
and panics when absent; otherwise decodes with `Validation::default()`:
structural validity, signature against the secret, then expiry against the
verification-time clock (the 60 s default leeway of the jsonwebtoken crate
is abstracted to zero, as the spec does). -/
def JwtService.verify_token (env : Env) (now : Nat) (t : Jwt) :
    ReqResult Claims :=
  match env.jwt_secret with
  | none => .panic
  | some secret =>
    match t with
    | .garbage _ => .err .malformed
    | .signed c k =>
      if k ≠ secret then .err .invalidSignature
      else if c.exp < now then .err .expired
      else .ok c

/-! ## Authorization guard: src/auth/guard.rs -/

/-- The identity produced by the request guard. -/
structure AuthenticatedUser where
  user_id : String
deriving DecidableEq, Repr

/-- The Authorization header of an inbound request, with the bearer wire
format abstracted: `bearer t` stands for the header string
"Bearer " ++ wire(t) (so the byte-7 slice of the source recovers t);
`nonBearer s` stands for a present header that does not start with the
literal prefix "Bearer "; `absent` for no header at all. -/
inductive AuthHeader
  | absent
  | nonBearer (s : String)
  | bearer (t : Jwt)
deriving DecidableEq, Repr

/-- Outcome of `FromRequest for AuthenticatedUser`: success with an
identity, or the single `Outcome::Error((Status::Unauthorized, ()))`
value used on every failure path; `panic` records the abort that
`verify_token` performs when the secret is missing. -/
inductive GuardOutcome
  | success (u : AuthenticatedUser)
  | unauthorized
  | panic
deriving DecidableEq, Repr

/-- Model of `AuthenticatedUser::from_request`: no header, or a header without the
"Bearer " prefix, is rejected; otherwise the remainder is verified and a
success carries `user_id = claims.sub`; every verification error maps to
the same unauthorized outcome. -/
def AuthenticatedUser.from_request (env : Env) (now : Nat) (h : AuthHeader) :
    GuardOutcome :=
  match h with
  | .absent => .unauthorized
  | .nonBearer _ => .unauthorized
  | .bearer t =>
    match JwtService.verify_token env now t with
    | .ok claims => .success ⟨claims.sub⟩
    | .err _ => .unauthorized
    | .panic => .panic

/-! ## Startup configuration reads: src/main.rs -/

/-- The environment variables relevant to startup. `main` reads
ROCKET_DATABASE_URL with `.expect`; it never reads ROCKET_JWT_SECRET. -/
structure StartupEnv where
  database_url : Option String
  jwt_secret : Option String
deriving DecidableEq, Repr

/-- Whether `main` proceeds past its configuration loading: it requires
only the database URL (store connection and migrations are abstracted as
succeeding); the JWT secret is not consulted at startup. -/
def main_startup (env : StartupEnv) : Bool :=
  env.database_url.isSome

/-! ## Data model: src/models/user.rs, src/models/password_reset.rs -/

/-- Row of the users table (struct `User`); the Uuid id is abstracted to an
opaque string, timestamps to epoch seconds. -/
structure User where
  id : String
  email : String
  password_hash : String
  created_at : Nat
  updated_at : Nat
deriving DecidableEq, Repr

/-- Row of the password_reset_tokens table (struct `PasswordResetToken`). -/
structure PasswordResetToken where
  id : String
  user_id : String
  token : String
  expires_at : Nat
  used : Bool
  created_at : Nat
deriving DecidableEq, Repr

/-! ## Route-level response and external-call outcomes: src/routes/auth.rs -/

/-- HTTP statuses the auth routes produce. -/
inductive Status
  | ok
  | created
  | badRequest
  | unauthorized
  | conflict
  | notFound
  | internalServerError
deriving DecidableEq, Repr

/-- Public user fields echoed in success bodies (id, email, created_at). -/
structure UserPublic where
  id : String
  email : String
  created_at : Nat
deriving DecidableEq, Repr

/-- A JSON body as the routes build it: `message` is the text of the
single "error" or "message" field; `token` is the reset-token field of
forgot_password, `jwt` the signed session token of login, `user` the
public user object, each present only where the source includes it. -/
structure ApiResponse where
  status : Status
  message : String
  token : Option String := none
  jwt : Option Jwt := none
  user : Option UserPublic := none
deriving DecidableEq, Repr

/-- Error of an external sqlx call, keeping just the distinction the spec
reasons about: a unique-constraint violation versus any other failure. -/
inductive DbError
  | uniqueViolation
  | otherError
deriving DecidableEq, Repr

/-- Outcome of an external sqlx call. -/
inductive DbResult (α : Type)
  | ok (a : α)
  | err (e : DbError)
deriving DecidableEq, Repr

/-- Outcome of the external `bcrypt::hash` call (`User::hash_password`). -/
inductive HashResult
  | ok (hash : String)
  | err
deriving DecidableEq, Repr

/-- Outcome of the external `bcrypt::verify` call
(`User::verify_password`): a boolean on success, an error only on
malformed hash input. -/
inductive VerifyResult
  | ok (matched : Bool)
  | err
deriving DecidableEq, Repr

/-- A route outcome that may also be a request-aborting panic
(login calls `JwtService::generate_token`, which can panic). -/
inductive RouteOut
  | resp (r : ApiResponse)
  | panic
deriving DecidableEq, Repr

/-! ## register: src/routes/auth.rs lines 14-113 -/

/-- Outcomes of the external calls `register` makes, one per call site in
source order: the SELECT id by email, the bcrypt hash, the INSERT
returning the created row. -/
structure RegisterCtx where
  existing_user : DbResult (Option String)
  hash_result : HashResult
  insert_result : DbResult User
deriving DecidableEq, Repr

/-- Model of `register`: reject an email in which the character `@` does not occur
(Rust email.contains of a char, stated over the character sequence);
reject a password of `.len() < 6` — Rust String::len, i.e. UTF-8 byte
length; conflict when the existence probe finds a row; then hash and
insert, mapping any insert error to a 500. -/
def register (ctx : RegisterCtx) (email password : String) : ApiResponse :=
  if ¬ email.data.contains '@' then
    { status := .badRequest, message := "Invalid email format" }
  else if password.utf8ByteSize < 6 then
    { status := .badRequest,
      message := "Password must be at least 6 characters long" }
  else
    match ctx.existing_user with
    | .ok (some _) =>
      { status := .conflict, message := "User with this email already exists" }
    | .err _ =>
      { status := .internalServerError, message := "Database error occurred" }
    | .ok none =>
      match ctx.hash_result with
      | .err =>
        { status := .internalServerError, message := "Failed to hash password" }
      | .ok _ =>
        match ctx.insert_result with
        | .ok user =>
          { status := .created, message := "User registered successfully",
            user := some ⟨user.id, user.email, user.created_at⟩ }
        | .err _ =>
          { status := .internalServerError, message := "Failed to create user" }

/-! ## login: src/routes/auth.rs lines 116-196 -/

/-- Outcomes of the external calls `login` makes: the SELECT by email and
the bcrypt verification of the submitted password against the stored
hash. -/
structure LoginCtx where
  find_user : DbResult (Option User)
  verify_result : VerifyResult
deriving DecidableEq, Repr

/-- Model of `login`: unknown email and a non-matching password both produce the
same 401 "Invalid email or password"; a match issues a JWT via
`JwtService::generate_token` (which reads the secret and may panic) and
returns it with the public user fields. -/
def login (env : Env) (now : Nat) (ctx : LoginCtx) : RouteOut :=
  match ctx.find_user with
  | .ok none =>
    .resp { status := .unauthorized, message := "Invalid email or password" }
  | .err _ =>
    .resp { status := .internalServerError, message := "Database error occurred" }
  | .ok (some user) =>
    match ctx.verify_result with
    | .ok true =>
      match JwtService.generate_token env now user.id with
      | .panic => .panic
      | .err _ =>
        .resp { status := .internalServerError,
                message := "Failed to generate token" }
      | .ok t =>
        .resp { status := .ok, message := "Login successful", jwt := some t,
                user := some ⟨user.id, user.email, user.created_at⟩ }
    | .ok false =>
      .resp { status := .unauthorized, message := "Invalid email or password" }
    | .err =>
      .resp { status := .internalServerError,
              message := "Failed to verify password" }

/-! ## forgot_password: src/routes/auth.rs lines 199-263 -/

/-- Outcomes of the external calls `forgot_password` makes: the SELECT by
email, the freshly generated uuid-v4 token string, and the INSERT of the
reset-token row (bound to expires_at = now + 1 h, unobservable here). -/
structure ForgotCtx where
  find_user : DbResult (Option User)
  fresh_token : String
  insert_result : DbResult Unit
deriving DecidableEq, Repr

/-- Model of `forgot_password`: when the user is found and the token row inserts,
answer 200 with "Password reset token generated. Check your email." and
the raw token (development affordance); on insert failure, lookup error or
unknown email answer 200 with the generic
"If the email exists, a password reset token has been sent.". -/
def forgot_password (ctx : ForgotCtx) : ApiResponse :=
  match ctx.find_user with
  | .ok (some _user) =>
    match ctx.insert_result with
    | .ok _ =>
      { status := .ok,
        message := "Password reset token generated. Check your email.",
        token := some ctx.fresh_token }
    | .err _ =>
      { status := .ok,
        message := "If the email exists, a password reset token has been sent." }
  | .ok none =>
    { status := .ok,
      message := "If the email exists, a password reset token has been sent." }
  | .err _ =>
    { status := .ok,
      message := "If the email exists, a password reset token has been sent." }

/-! ## reset_password: src/routes/auth.rs lines 266-379 -/

/-- A write the reset-password flow performs against the external store:
the UPDATE of the users row or the UPDATE setting used = TRUE on the
token row. The flow records each statement it executes, in order. -/
inductive Effect
  | updatePassword (user_id : String)
  | markUsed (token : String)
deriving DecidableEq, Repr

/-- How a recorded write acts on the reset-token table:
`markUsed tok` sets used := true on the matching rows; the users-table
update does not touch reset tokens. -/
def applyEffect (tokens : List PasswordResetToken) : Effect → List PasswordResetToken
  | .markUsed tok =>
    tokens.map (fun t => if t.token = tok then { t with used := true } else t)
  | .updatePassword _ => tokens

/-- Outcomes of the external calls `reset_password` makes, in source
order: the SELECT by token value, the bcrypt hash of the new password, the
users-table UPDATE, and the mark-used UPDATE (whose result the source
discards with `let _ =`). -/
structure ResetCtx where
  find_token : DbResult (Option PasswordResetToken)
  hash_result : HashResult
  update_result : DbResult Unit
  mark_used_result : DbResult Unit
deriving DecidableEq, Repr

/-- Continuation of `reset_password` after a found, non-expired, unused
token: hash the new password, update the users row; only on a successful
update execute the mark-used statement (discarding its result) and
answer 200; on update failure answer 500 without touching the token. -/
def reset_password_apply (ctx : ResetCtx) (token : String)
    (rt : PasswordResetToken) : ApiResponse × List Effect :=
  match ctx.hash_result with
  | .err =>
    ({ status := .internalServerError, message := "Failed to hash password" }, [])
  | .ok _hash =>
    match ctx.update_result with
    | .ok _ =>
      ({ status := .ok, message := "Password reset successfully" },
       [.updatePassword rt.user_id, .markUsed token])
    | .err _ =>
      ({ status := .internalServerError, message := "Failed to reset password" },
       [.updatePassword rt.user_id])

/-- Model of `reset_password`: reject a new password of `.len() < 6` (UTF-8 byte
length); look the token up by value; if found, reject an expired token
(expires_at < now) before an already-used one; a found, non-expired,
unused token proceeds to `reset_password_apply`. Returns the response and
the list of store writes executed. -/
def reset_password (now : Nat) (ctx : ResetCtx) (token new_password : String) :
    ApiResponse × List Effect :=
  if new_password.utf8ByteSize < 6 then
    ({ status := .badRequest,
       message := "Password must be at least 6 characters long" }, [])
  else
    match ctx.find_token with
    | .ok none =>
      ({ status := .badRequest, message := "Invalid or expired reset token" }, [])
    | .err _ =>
      ({ status := .internalServerError, message := "Database error occurred" }, [])
    | .ok (some rt) =>
      if rt.expires_at < now then
        ({ status := .badRequest, message := "Reset token has expired" }, [])
      else if rt.used then
        ({ status := .badRequest, message := "Reset token has already been used" }, [])
      else
        reset_password_apply ctx token rt

/-! ## Theorems on the claims -/

/-- Claim C1, counterexample: with ROCKET_JWT_SECRET absent from the
process environment, the per-request operation generate_token aborts
(panics) at request time — refuting that the secret is startup-only state
whose absence can never abort a per-request token operation. -/
theorem generate_token_panics_without_secret :
    JwtService.generate_token ⟨none⟩ 0 "user-1" = .panic := rfl

/-- Claim C1, amended: the signing secret is read from the process
environment anew on every token operation; when ROCKET_JWT_SECRET is
absent, both issuance and verification panic at request time, while
startup, which reads only the database URL, proceeds without it. -/
theorem jwt_secret_read_per_call (now : Nat) (user_id : String) (t : Jwt) :
    JwtService.generate_token ⟨none⟩ now user_id = .panic ∧
    JwtService.verify_token ⟨none⟩ now t = .panic ∧
    main_startup ⟨some "postgres:localhost", none⟩ = true :=
  ⟨rfl, rfl, rfl⟩

/-- Claim C2: on a found reset token, expiry is checked before the used
flag — an expired token is reported expired even when already used, a
live used token is reported already used, and a live unused token
proceeds to the password-update continuation. -/
theorem reset_token_expiry_before_used (now : Nat) (ctx : ResetCtx)
    (token new_password : String) (rt : PasswordResetToken)
    (hlen : ¬ new_password.utf8ByteSize < 6)
    (hfind : ctx.find_token = .ok (some rt)) :
    (rt.expires_at < now →
      (reset_password now ctx token new_password).1 =
        { status := .badRequest, message := "Reset token has expired" }) ∧
    (¬ rt.expires_at < now → rt.used = true →
      (reset_password now ctx token new_password).1 =
        { status := .badRequest,
          message := "Reset token has already been used" }) ∧
    (¬ rt.expires_at < now → rt.used = false →
      reset_password now ctx token new_password =
        reset_password_apply ctx token rt) := by
  obtain ⟨ft, hres, ures, mres⟩ := ctx
  simp only at hfind
  subst hfind
  refine ⟨fun hexp => ?_, fun hexp hused => ?_, fun hexp hused => ?_⟩
  · simp [reset_password, hlen, hexp]
  · simp [reset_password, hlen, hexp, hused]
  · simp [reset_password, hlen, hexp, hused]

/-- Witness for claim C2, at a token that is both expired and used. -/
theorem reset_token_expiry_before_used_witness :
    (reset_password 20
      ⟨.ok (some ⟨"id-1", "uid-1", "tok-1", 10, true, 0⟩), .ok "h", .ok (), .ok ()⟩
      "tok-1" "secret1").1 =
      { status := .badRequest, message := "Reset token has expired" } :=
  (reset_token_expiry_before_used 20
    ⟨.ok (some ⟨"id-1", "uid-1", "tok-1", 10, true, 0⟩), .ok "h", .ok (), .ok ()⟩
    "tok-1" "secret1" ⟨"id-1", "uid-1", "tok-1", 10, true, 0⟩
    (by decide) rfl).1 (by decide)

/-- Claim C3, counterexample: at concrete inputs, forgot_password for a
found user with a successful token insert and forgot_password for an
unknown email answer with different message texts, so the two success
responses are distinguishable beyond the token field. -/
theorem forgot_password_messages_differ :
    (forgot_password
        ⟨.ok (some ⟨"id-1", "a@b.com", "h", 0, 0⟩), "tok-1", .ok ()⟩).message ≠
    (forgot_password ⟨.ok none, "tok-1", .ok ()⟩).message := by decide

/-- Claim C3, amended: both calls answer with status 200 Ok, but the
found-and-persisted call carries the message
"Password reset token generated. Check your email." together with the raw
token, while the unknown-email call carries
"If the email exists, a password reset token has been sent." — the two
responses differ in message text, not only in the token field. -/
theorem forgot_password_same_status_distinct_messages
    (ctx1 ctx2 : ForgotCtx) (u : User)
    (h1 : ctx1.find_user = .ok (some u)) (hins : ctx1.insert_result = .ok ())
    (h2 : ctx2.find_user = .ok none) :
    forgot_password ctx1 =
      { status := .ok,
        message := "Password reset token generated. Check your email.",
        token := some ctx1.fresh_token } ∧
    forgot_password ctx2 =
      { status := .ok,
        message := "If the email exists, a password reset token has been sent." } := by
  obtain ⟨f1, t1, i1⟩ := ctx1
  obtain ⟨f2, t2, i2⟩ := ctx2
  simp only at h1 hins h2
  subst h1; subst hins; subst h2
  exact ⟨rfl, rfl⟩

/-- Witness for the amended claim C3. -/
theorem forgot_password_same_status_distinct_messages_witness :
    forgot_password ⟨.ok (some ⟨"id-1", "a@b.com", "h", 0, 0⟩), "tok-1", .ok ()⟩ =
      { status := .ok,
        message := "Password reset token generated. Check your email.",
        token := some "tok-1" } :=
  (forgot_password_same_status_distinct_messages
    ⟨.ok (some ⟨"id-1", "a@b.com", "h", 0, 0⟩), "tok-1", .ok ()⟩
    ⟨.ok none, "tok-2", .ok ()⟩ ⟨"id-1", "a@b.com", "h", 0, 0⟩ rfl rfl rfl).1

/-- Claim C4: with the secret configured, issuance for subject s builds
claims with sub = s, iat = now and exp = now + 24 h; verification at
issuance time succeeds and returns claims with subject s; verification at
any instant past the 24-hour window fails with the expiry error. -/
theorem issue_verify_roundtrip (env : Env) (secret : String) (now : Nat)
    (s : String) (hsec : env.jwt_secret = some secret) :
    JwtService.generate_token env now s =
      .ok (.signed { sub := s, exp := now + 24 * 3600, iat := now } secret) ∧
    JwtService.verify_token env now (.signed (Claims.new now s) secret) =
      .ok (Claims.new now s) ∧
    (Claims.new now s).sub = s ∧
    (∀ later, now + 24 * 3600 < later →
      JwtService.verify_token env later (.signed (Claims.new now s) secret) =
        .err .expired) := by
  refine ⟨?_, ?_, rfl, fun later hlate => ?_⟩
  · simp [JwtService.generate_token, hsec, Claims.new]
  · simp [JwtService.verify_token, hsec, Claims.new]
  · simp [JwtService.verify_token, hsec, Claims.new, hlate]

/-- Witness for claim C4, at secret "k0", issuance time 1000 and a
verification 100000 seconds later. -/
theorem issue_verify_roundtrip_witness :
    JwtService.generate_token ⟨some "k0"⟩ 1000 "user-1" =
      .ok (.signed { sub := "user-1", exp := 1000 + 24 * 3600, iat := 1000 } "k0") ∧
    JwtService.verify_token ⟨some "k0"⟩ 100000
      (.signed (Claims.new 1000 "user-1") "k0") = .err .expired :=
  ⟨(issue_verify_roundtrip ⟨some "k0"⟩ "k0" 1000 "user-1" rfl).1,
   (issue_verify_roundtrip ⟨some "k0"⟩ "k0" 1000 "user-1" rfl).2.2.2 100000
     (by norm_num)⟩

/-- Claim C5: with the secret configured, the guard terminates in one
step with one of exactly two outcomes — unauthorized when the header is
absent, lacks the "Bearer " prefix, or the token fails verification for
any reason, and success carrying user_id = claims.sub when verification
succeeds; it never reaches any third outcome. -/
theorem guard_single_step_two_outcomes (env : Env) (secret : String)
    (now : Nat) (hsec : env.jwt_secret = some secret) :
    AuthenticatedUser.from_request env now .absent = .unauthorized ∧
    (∀ s, AuthenticatedUser.from_request env now (.nonBearer s) = .unauthorized) ∧
    (∀ t e, JwtService.verify_token env now t = .err e →
      AuthenticatedUser.from_request env now (.bearer t) = .unauthorized) ∧
    (∀ t c, JwtService.verify_token env now t = .ok c →
      AuthenticatedUser.from_request env now (.bearer t) = .success ⟨c.sub⟩) ∧
    (∀ hd, AuthenticatedUser.from_request env now hd ≠ .panic) := by
  refine ⟨rfl, fun s => rfl, fun t e hv => ?_, fun t c hv => ?_, fun hd => ?_⟩
  · simp [AuthenticatedUser.from_request, hv]
  · simp [AuthenticatedUser.from_request, hv]
  · cases hd with
    | absent => simp [AuthenticatedUser.from_request]
    | nonBearer s => simp [AuthenticatedUser.from_request]
    | bearer t =>
      cases t with
      | garbage s =>
        simp [AuthenticatedUser.from_request, JwtService.verify_token, hsec]
      | signed c k =>
        simp only [AuthenticatedUser.from_request, JwtService.verify_token, hsec]
        by_cases hk : k = secret
        · subst hk
          simp only [ne_eq, not_true_eq_false, if_false]
          by_cases hexp : c.exp < now <;> simp [hexp]
        · simp [hk]

/-- Witness for claim C5, at a missing header under a configured secret. -/
theorem guard_single_step_two_outcomes_witness :
    AuthenticatedUser.from_request ⟨some "k0"⟩ 5 .absent = .unauthorized :=
  (guard_single_step_two_outcomes ⟨some "k0"⟩ "k0" 5 rfl).1

/-- Claim C6: a login whose email lookup finds no user and a login whose
found user fails the password check produce the identical 401 response
"Invalid email or password", so the two causes are indistinguishable. -/
theorem login_failure_causes_indistinguishable (env : Env) (now : Nat)
    (ctx1 ctx2 : LoginCtx) (u : User)
    (h1 : ctx1.find_user = .ok none)
    (h2 : ctx2.find_user = .ok (some u))
    (h3 : ctx2.verify_result = .ok false) :
    login env now ctx1 = login env now ctx2 ∧
    login env now ctx1 =
      .resp { status := .unauthorized, message := "Invalid email or password" } := by
  obtain ⟨f1, v1⟩ := ctx1
  obtain ⟨f2, v2⟩ := ctx2
  simp only at h1 h2 h3
  subst h1; subst h2; subst h3
  exact ⟨rfl, rfl⟩

/-- Witness for claim C6. -/
theorem login_failure_causes_indistinguishable_witness :
    login ⟨some "k0"⟩ 0 ⟨.ok none, .ok true⟩ =
      login ⟨some "k0"⟩ 0
        ⟨.ok (some ⟨"id-1", "a@b.com", "h", 0, 0⟩), .ok false⟩ :=
  (login_failure_causes_indistinguishable ⟨some "k0"⟩ 0
    ⟨.ok none, .ok true⟩ ⟨.ok (some ⟨"id-1", "a@b.com", "h", 0, 0⟩), .ok false⟩
    ⟨"id-1", "a@b.com", "h", 0, 0⟩ rfl rfl rfl).1

/-- Claim C7, code behaviour at the failing input: when the existence
probe sees no user but the INSERT then fails with the unique-constraint
violation of a concurrent registration, register answers 500
"Failed to create user" — not the conflict outcome the claim requires. -/
theorem register_insert_race_returns_500 (ctx : RegisterCtx)
    (email p h : String)
    (hat : email.data.contains '@' = true)
    (hlen : ¬ p.utf8ByteSize < 6)
    (hex : ctx.existing_user = .ok none)
    (hh : ctx.hash_result = .ok h)
    (hins : ctx.insert_result = .err .uniqueViolation) :
    register ctx email p =
      { status := .internalServerError, message := "Failed to create user" } ∧
    (register ctx email p).status ≠ .conflict := by
  obtain ⟨ex, hres, ins⟩ := ctx
  simp only at hex hh hins
  subst hex; subst hh; subst hins
  have hmem : '@' ∈ email.data := by simpa using hat
  constructor
  · simp [register, hmem, hlen]
  · simp [register, hmem, hlen]

/-- Witness for claim C7. -/
theorem register_insert_race_returns_500_witness :
    register ⟨.ok none, .ok "h", .err .uniqueViolation⟩ "a@b.com" "secret1" =
      { status := .internalServerError, message := "Failed to create user" } :=
  (register_insert_race_returns_500 ⟨.ok none, .ok "h", .err .uniqueViolation⟩
    "a@b.com" "secret1" "h" (by decide) (by decide) rfl rfl rfl).1

/-- Claim C8: when the users-table update succeeds but the mark-used
update fails, reset_password still answers 200
"Password reset successfully", having attempted the mark-used write. -/
theorem mark_used_failure_tolerated (now : Nat) (ctx : ResetCtx)
    (token new_password h : String) (rt : PasswordResetToken) (e : DbError)
    (hlen : ¬ new_password.utf8ByteSize < 6)
    (hfind : ctx.find_token = .ok (some rt))
    (hexp : ¬ rt.expires_at < now) (hused : rt.used = false)
    (hhash : ctx.hash_result = .ok h)
    (hupd : ctx.update_result = .ok ())
    (hmark : ctx.mark_used_result = .err e) :
    (reset_password now ctx token new_password).1 =
      { status := .ok, message := "Password reset successfully" } ∧
    Effect.markUsed token ∈ (reset_password now ctx token new_password).2 := by
  obtain ⟨ft, hres, ures, mres⟩ := ctx
  simp only at hfind hhash hupd hmark
  subst hfind; subst hhash; subst hupd; subst hmark
  constructor
  · simp [reset_password, reset_password_apply, hlen, hexp, hused]
  · simp [reset_password, reset_password_apply, hlen, hexp, hused]

/-- Witness for claim C8. -/
theorem mark_used_failure_tolerated_witness :
    (reset_password 20
      ⟨.ok (some ⟨"id-1", "uid-1", "tok-1", 100, false, 0⟩), .ok "h",
       .ok (), .err .otherError⟩ "tok-1" "secret1").1 =
      { status := .ok, message := "Password reset successfully" } :=
  (mark_used_failure_tolerated 20
    ⟨.ok (some ⟨"id-1", "uid-1", "tok-1", 100, false, 0⟩), .ok "h",
     .ok (), .err .otherError⟩ "tok-1" "secret1" "h"
    ⟨"id-1", "uid-1", "tok-1", 100, false, 0⟩ .otherError
    (by decide) rfl (by decide) rfl rfl rfl rfl).1

/-- Claim C9: when the users-table update fails, reset_password answers
500 "Failed to reset password", the only store write executed is the
failed password update, and the reset-token table — in particular the
used flag of the redeemed token — is left unchanged. -/
theorem update_failure_leaves_token_unused (now : Nat) (ctx : ResetCtx)
    (token new_password h : String) (rt : PasswordResetToken) (e : DbError)
    (hlen : ¬ new_password.utf8ByteSize < 6)
    (hfind : ctx.find_token = .ok (some rt))
    (hexp : ¬ rt.expires_at < now) (hused : rt.used = false)
    (hhash : ctx.hash_result = .ok h)
    (hupd : ctx.update_result = .err e) :
    (reset_password now ctx token new_password).1 =
      { status := .internalServerError, message := "Failed to reset password" } ∧
    (reset_password now ctx token new_password).2 =
      [.updatePassword rt.user_id] ∧
    (∀ tokens, List.foldl applyEffect tokens
      (reset_password now ctx token new_password).2 = tokens) := by
  obtain ⟨ft, hres, ures, mres⟩ := ctx
  simp only at hfind hhash hupd
  subst hfind; subst hhash; subst hupd
  refine ⟨?_, ?_, fun tokens => ?_⟩
  · simp [reset_password, reset_password_apply, hlen, hexp, hused]
  · simp [reset_password, reset_password_apply, hlen, hexp, hused]
  · simp [reset_password, reset_password_apply, hlen, hexp, hused, applyEffect]

/-- Witness for claim C9. -/
theorem update_failure_leaves_token_unused_witness :
    (reset_password 20
      ⟨.ok (some ⟨"id-1", "uid-1", "tok-1", 100, false, 0⟩), .ok "h",
       .err .otherError, .ok ()⟩ "tok-1" "secret1").1 =
      { status := .internalServerError, message := "Failed to reset password" } :=
  (update_failure_leaves_token_unused 20
    ⟨.ok (some ⟨"id-1", "uid-1", "tok-1", 100, false, 0⟩), .ok "h",
     .err .otherError, .ok ()⟩ "tok-1" "secret1" "h"
    ⟨"id-1", "uid-1", "tok-1", 100, false, 0⟩ .otherError
    (by decide) rfl (by decide) rfl rfl rfl).1

/-- Claim C10: in register and reset_password alike, the minimum-length
validation measures UTF-8 bytes — a password under 6 bytes is rejected
with the length validation error, and a password of 6 bytes or more never
produces that error, regardless of its character count. -/
theorem password_length_is_byte_length (p : String) :
    (∀ ctx email, email.data.contains '@' = true → p.utf8ByteSize < 6 →
      register ctx email p =
        { status := .badRequest,
          message := "Password must be at least 6 characters long" }) ∧
    (∀ ctx email, 6 ≤ p.utf8ByteSize →
      register ctx email p ≠
        { status := .badRequest,
          message := "Password must be at least 6 characters long" }) ∧
    (∀ now ctx token, p.utf8ByteSize < 6 →
      (reset_password now ctx token p).1 =
        { status := .badRequest,
          message := "Password must be at least 6 characters long" }) ∧
    (∀ now ctx token, 6 ≤ p.utf8ByteSize →
      (reset_password now ctx token p).1 ≠
        { status := .badRequest,
          message := "Password must be at least 6 characters long" }) := by
  refine ⟨fun ctx email hat hlt => ?_, fun ctx email hge => ?_,
          fun now ctx token hlt => ?_, fun now ctx token hge => ?_⟩
  · have hmem : '@' ∈ email.data := by simpa using hat
    simp [register, hmem, hlt]
  · have hnlt : ¬ p.utf8ByteSize < 6 := by omega
    obtain ⟨ex, hres, ins⟩ := ctx
    by_cases hmem : '@' ∈ email.data
    · cases ex with
      | ok o =>
        cases o with
        | none =>
          cases hres with
          | ok hsh =>
            cases ins with
            | ok u => simp [register, hmem, hnlt]
            | err e => simp [register, hmem, hnlt]
          | err => simp [register, hmem, hnlt]
        | some i => simp [register, hmem, hnlt]
      | err e => simp [register, hmem, hnlt]
    · simp [register, hmem, hnlt]
  · simp [reset_password, hlt]
  · have hnlt : ¬ p.utf8ByteSize < 6 := by omega
    obtain ⟨ft, hres, ures, mres⟩ := ctx
    cases ft with
    | ok o =>
      cases o with
      | none => simp [reset_password, hnlt]
      | some rt =>
        by_cases hexp : rt.expires_at < now
        · simp [reset_password, hnlt, hexp]
        · by_cases hused : rt.used = true
          · simp [reset_password, hnlt, hexp, hused]
          · cases hres with
            | ok hsh =>
              cases ures with
              | ok un =>
                simp [reset_password, reset_password_apply, hnlt, hexp, hused]
              | err e =>
                simp [reset_password, reset_password_apply, hnlt, hexp, hused]
            | err =>
              simp [reset_password, reset_password_apply, hnlt, hexp, hused]
    | err e => simp [reset_password, hnlt]

/-- Witness for claim C10, at the three-character, six-byte password
"ééé": fewer than 6 characters, yet accepted by the length check. -/
theorem password_length_is_byte_length_witness :
    ("ééé".length < 6 ∧ 6 ≤ "ééé".utf8ByteSize) ∧
    (reset_password 0 ⟨.ok none, .ok "h", .ok (), .ok ()⟩ "t" "ééé").1 ≠
      { status := .badRequest,
        message := "Password must be at least 6 characters long" } :=
  ⟨by decide,
   (password_length_is_byte_length "ééé").2.2.2 0
     ⟨.ok none, .ok "h", .ok (), .ok ()⟩ "t" (by decide)⟩

end RustAuth
